import Mathlib

set_option linter.unusedVariables false

/- Shallow embedding of the bittrex-cryptoexchange-api client library.
   src/index.ts is the Gemini client module and src/unnamed/part_000 is the
   Bittrex client module; the two are structurally parallel.  External
   collaborators are handled as follows: the HMAC primitive (crypto
   createHmac / digest hex) is an explicit function parameter of every
   definition that signs, since only the message construction is code of
   this repository; the qs.stringify query encoder and JSON.stringify are
   modelled concretely for the flat string/number/boolean/null/undefined
   maps the library feeds them, following the documented default behaviour
   of those functions; the HTTP transport (axios) is an explicit function
   parameter, and each dispatcher records the requests it actually issues. -/

/-- A JavaScript primitive value as it can appear in a query-parameter map
(IQueryParams), a post body (IPostBody) or a header object. -/
inductive QVal where
  | str (s : String)
  | num (n : Int)
  | bool (b : Bool)
  | null
  | undefined
  deriving Repr, DecidableEq

/-- Association-list lookup with string keys (property lookup on the JS
object literals modelled as insertion-ordered association lists). -/
def lookupKV {β : Type} : List (String × β) → String → Option β
  | [], _ => none
  | (k₂, v) :: rest, k => if k₂ = k then some v else lookupKV rest k

/-- Setting one property in a JS object-literal spread: an existing key
keeps its position and receives the new value, a new key is appended. -/
def jsSet {β : Type} : List (String × β) → String → β → List (String × β)
  | [], k, v => [(k, v)]
  | (k₂, v₂) :: rest, k, v =>
      if k₂ = k then (k, v) :: rest else (k₂, v₂) :: jsSet rest k v

/-- A sequence of property assignments, left to right (spreading several
later properties over a base object). -/
def jsSetAll {β : Type} (base : List (String × β)) (kvs : List (String × β)) :
    List (String × β) :=
  kvs.foldl (fun acc kv => jsSet acc kv.1 kv.2) base

/-- Uppercase hexadecimal digit. -/
def hexDigitU (n : Nat) : Char :=
  "0123456789ABCDEF".data.getD n '0'

/-- Lowercase hexadecimal digit. -/
def hexDigitL (n : Nat) : Char :=
  "0123456789abcdef".data.getD n '0'

/-- Two uppercase hex digits of a byte value. -/
def hexByteU (b : Nat) : String :=
  String.mk [hexDigitU (b / 16 % 16), hexDigitU (b % 16)]

/-- Two lowercase hex digits of a byte value. -/
def hexByteL (b : Nat) : String :=
  String.mk [hexDigitL (b / 16 % 16), hexDigitL (b % 16)]

/-- UTF-8 encoding of one character, as byte values. -/
def utf8Bytes (c : Char) : List Nat :=
  let n := c.toNat
  if n < 0x80 then [n]
  else if n < 0x800 then [0xC0 + n / 0x40, 0x80 + n % 0x40]
  else if n < 0x10000 then
    [0xE0 + n / 0x1000, 0x80 + n / 0x40 % 0x40, 0x80 + n % 0x40]
  else
    [0xF0 + n / 0x40000, 0x80 + n / 0x1000 % 0x40, 0x80 + n / 0x40 % 0x40,
      0x80 + n % 0x40]

/-- UTF-8 bytes of a string. -/
def strBytes (s : String) : List Nat :=
  (s.data.map utf8Bytes).flatten

/-- RFC 3986 unreserved bytes, the bytes the qs encoder keeps verbatim in
its default format. -/
def isUnreservedByte (b : Nat) : Bool :=
  (0x30 ≤ b && b ≤ 0x39) || (0x41 ≤ b && b ≤ 0x5A) || (0x61 ≤ b && b ≤ 0x7A) ||
    b == 0x2D || b == 0x2E || b == 0x5F || b == 0x7E

/-- Percent-encoding as performed by qs.stringify with default options
(RFC 3986 format, uppercase hex, UTF-8 bytes). -/
def percentEncode (s : String) : String :=
  String.join ((strBytes s).map (fun b =>
    if isUnreservedByte b then String.singleton (Char.ofNat b)
    else "%" ++ hexByteU b))

def base64Alphabet : List Char :=
  "ABCDEFGHIJKLMNOPQRSTUVWXYZabcdefghijklmnopqrstuvwxyz0123456789+/".data

def base64Digit (n : Nat) : Char := base64Alphabet.getD n 'A'

/-- Standard base64 of a byte sequence, with padding. -/
def base64Bytes : List Nat → String
  | [] => ""
  | [b₁] =>
      String.mk [base64Digit (b₁ / 4), base64Digit (b₁ % 4 * 16)] ++ "=="
  | [b₁, b₂] =>
      String.mk [base64Digit (b₁ / 4), base64Digit (b₁ % 4 * 16 + b₂ / 16),
        base64Digit (b₂ % 16 * 4)] ++ "="
  | b₁ :: b₂ :: b₃ :: rest =>
      String.mk [base64Digit (b₁ / 4), base64Digit (b₁ % 4 * 16 + b₂ / 16),
        base64Digit (b₂ % 16 * 4 + b₃ / 64), base64Digit (b₃ % 64)] ++
        base64Bytes rest

/-- base64 of the UTF-8 bytes of a string (Buffer of a string rendered in
base64). -/
def base64Encode (s : String) : String := base64Bytes (strBytes s)

/-- One key/value pair as rendered by qs.stringify with default options: a
normal value gives key=value, a null value gives key= (included with an
empty value), an undefined value omits the pair entirely. -/
def qsPair (k : String) (v : QVal) : Option String :=
  match v with
  | .undefined => none
  | .null => some (percentEncode k ++ "=")
  | .str s => some (percentEncode k ++ "=" ++ percentEncode s)
  | .num n => some (percentEncode k ++ "=" ++ percentEncode (toString n))
  | .bool b => some (percentEncode k ++ "=" ++ (if b then "true" else "false"))

/-- qs.stringify on a flat map: the rendered pairs joined with an
ampersand. -/
def qsStringify (ps : List (String × QVal)) : String :=
  String.intercalate "&" (ps.filterMap (fun p => qsPair p.1 p.2))

/-- qs.stringify where the whole argument may be absent: qs.stringify of
undefined or null is the empty string. -/
def qsStringifyOpt : Option (List (String × QVal)) → String
  | none => ""
  | some ps => qsStringify ps

/-- The form encoding exactly as worded by the specification sentence
behind claim C1: keys with undefined or null values are both included with
an empty value.  It differs from the qs encoder on undefined values and
exists only to compare that wording with the code. -/
def specFormEncode (ps : List (String × QVal)) : String :=
  String.intercalate "&" (ps.map (fun p =>
    match p.2 with
    | .undefined => percentEncode p.1 ++ "="
    | .null => percentEncode p.1 ++ "="
    | .str s => percentEncode p.1 ++ "=" ++ percentEncode s
    | .num n => percentEncode p.1 ++ "=" ++ percentEncode (toString n)
    | .bool b => percentEncode p.1 ++ "=" ++ (if b then "true" else "false")))

/-- JSON string escaping as performed by JSON.stringify. -/
def jsonEscapeChar (c : Char) : String :=
  if c = Char.ofNat 34 then "\\\""
  else if c = Char.ofNat 92 then "\\\\"
  else if c = Char.ofNat 8 then "\\b"
  else if c = Char.ofNat 9 then "\\t"
  else if c = Char.ofNat 10 then "\\n"
  else if c = Char.ofNat 12 then "\\f"
  else if c = Char.ofNat 13 then "\\r"
  else if c.toNat < 32 then "\\u00" ++ hexByteL c.toNat
  else String.singleton c

/-- A JSON string literal. -/
def jsonQuote (s : String) : String :=
  "\"" ++ String.join (s.data.map jsonEscapeChar) ++ "\""

/-- JSON.stringify of one primitive value (undefined never reaches this
point because the object serializer drops such properties). -/
def jsonValString : QVal → String
  | .str s => jsonQuote s
  | .num n => toString n
  | .bool b => if b then "true" else "false"
  | .null => "null"
  | .undefined => "null"

/-- JSON.stringify of a flat object: properties in insertion order,
properties whose value is undefined omitted. -/
def jsonStringifyObj (ps : List (String × QVal)) : String :=
  "\x7b" ++
    String.intercalate ","
      ((ps.filter (fun p => p.2 != QVal.undefined)).map
        (fun p => jsonQuote p.1 ++ ":" ++ jsonValString p.2)) ++
    "\x7d"

/-- A JavaScript runtime value, used to model the axios response and error
objects that reach the dispatchers. -/
inductive JSVal where
  | undefined
  | null
  | bool (b : Bool)
  | num (n : Int)
  | str (s : String)
  | obj (fields : List (String × JSVal))

/-- A runtime exception raised while evaluating a JS expression. -/
inductive JsError where
  | typeError (msg : String)

/-- JS property access: reading a property of undefined or null raises a
TypeError, a missing property of an object is undefined, and properties of
the remaining primitives are modelled as undefined. -/
def getProp : JSVal → String → Except JsError JSVal
  | .undefined, k => .error (.typeError ("cannot read property " ++ k ++ " of undefined"))
  | .null, k => .error (.typeError ("cannot read property " ++ k ++ " of null"))
  | .obj fields, k => .ok ((lookupKV fields k).getD .undefined)
  | _, _ => .ok .undefined

/-- JS truthiness. -/
def truthy : JSVal → Bool
  | .undefined => false
  | .null => false
  | .bool b => b
  | .num n => n != 0
  | .str s => s != ""
  | .obj _ => true

/-- The rejection-reason expression of the two private-endpoint catch
blocks: the error field of the response data, else the response data, else
the response, else the raw error, as a JS logical-or chain whose property
accesses can raise a TypeError. -/
def normalizeRejection (err : JSVal) : Except JsError JSVal := do
  let resp ← getProp err "response"
  let data ← getProp resp "data"
  let dataError ← getProp data "error"
  if truthy dataError then return dataError
  else if truthy data then return data
  else if truthy resp then return resp
  else return err

/-- IApiAuth: the container for the two API keys. -/
structure ApiAuth where
  publicKey : String
  privateKey : String
  deriving Repr, DecidableEq

/-- The mutable state of a client instance: the optional auth field. -/
structure ClientState where
  auth : Option ApiAuth
  deriving Repr, DecidableEq

/-- isUpgraded returns this.auth, which the callers use for its
truthiness; an object is truthy exactly when the auth field is set. -/
def isUpgraded (st : ClientState) : Bool := st.auth.isSome

/-- upgrade(newAuth) assigns this.auth wholesale. -/
def upgrade (st : ClientState) (newAuth : ApiAuth) : ClientState :=
  { auth := some newAuth }

/-- The defaultConfig constant of a module: rootUrl, timeout, version. -/
structure ExchangeDefaults where
  rootUrl : String
  timeout : Nat
  version : String
  deriving Repr, DecidableEq

/-- A configOverride object: each axios request field the two modules
consult, optionally present. -/
structure RequestConfig where
  rootUrl : Option String
  timeout : Option Nat
  version : Option String
  headers : Option (List (String × QVal))
  url : Option String
  method : Option String
  baseURL : Option String
  deriving Repr, DecidableEq

/-- The absent configOverride. -/
def noOverride : RequestConfig :=
  { rootUrl := none, timeout := none, version := none, headers := none,
    url := none, method := none, baseURL := none }

/-- The local config object built first in every endpoint method: the
spread of defaultConfig then configOverride. -/
structure LocalConfig where
  rootUrl : String
  timeout : Nat
  version : String
  headers : Option (List (String × QVal))
  url : Option String
  method : Option String
  baseURL : Option String
  deriving Repr, DecidableEq

def mergeConfig (d : ExchangeDefaults) (o : RequestConfig) : LocalConfig :=
  { rootUrl := o.rootUrl.getD d.rootUrl
    timeout := o.timeout.getD d.timeout
    version := o.version.getD d.version
    headers := o.headers
    url := o.url
    method := o.method
    baseURL := o.baseURL }

/-- The axios request config finally handed to the transport. -/
structure AgentConfig where
  baseURL : String
  headers : List (String × QVal)
  method : String
  timeout : Nat
  url : Option String
  data : Option String
  deriving Repr, DecidableEq

/-- Outcome of the HTTP transport for one issued request. -/
inductive TransportResult where
  | success (resp : JSVal)
  | failure (err : JSVal)

/-- The settled value of the promise returned by an endpoint method: a
resolved response, a rejection value, or a rejection carrying an exception
thrown inside the method itself. -/
inductive Outcome where
  | resolve (resp : JSVal)
  | reject (value : JSVal)
  | rejectThrown (e : JsError)

/-- Result of one endpoint method call: the client state afterwards, the
promise outcome, and the HTTP requests actually issued in order. -/
structure CallResult where
  state : ClientState
  outcome : Outcome
  issued : List AgentConfig

namespace Gemini

def defaultConfig : ExchangeDefaults :=
  { rootUrl := "https://api.gemini.com", timeout := 10000, version := "v1" }

def defaultHeaders : List (String × QVal) :=
  [("Cache-Control", QVal.str "no-cache"),
   ("Content-Length", QVal.num 0),
   ("Content-Type", QVal.str "text/plain"),
   ("User-Agent", QVal.str "Gemini API Client (gemini-api node package)")]

def publicAgentConfig : AgentConfig :=
  { baseURL := defaultConfig.rootUrl, headers := defaultHeaders,
    method := "GET", timeout := defaultConfig.timeout, url := none,
    data := none }

/-- The private agent config adds method POST. -/
def privateAgentConfig : AgentConfig :=
  { publicAgentConfig with method := "POST" }

/-- ISignature of src/index.ts. -/
structure Signature where
  digest : String
  payload : String
  deriving Repr, DecidableEq

/-- signMessage of src/index.ts, with the Date.now() read an explicit
argument and the HMAC-SHA384 hex primitive an explicit parameter: the body
is postData spread then nonce then request, the payload is the base64 of
its JSON text, the digest keys the payload with the secret. -/
def signMessage (hmacSHA384hex : String → String → String) (now : Nat)
    (path : String) (postData : Option (List (String × QVal)))
    (secret : String) : Signature :=
  let nonce := toString now
  let body := jsSet (jsSet (postData.getD []) "nonce" (QVal.str nonce))
    "request" (QVal.str path)
  let payload := base64Encode (jsonStringifyObj body)
  let digest := hmacSHA384hex secret payload
  { digest := digest, payload := payload }

/-- The agent config issued by getPublicEndpoint: publicAgentConfig plus
the computed url only.  The local config (defaults spread with the
configOverride) is consulted solely for the version used in the uri; it is
not spread into the issued request. -/
def publicRequest (endpoint : String)
    (queryParams : Option (List (String × QVal)))
    (configOverride : RequestConfig) : AgentConfig :=
  { publicAgentConfig with
      url := some ((mergeConfig defaultConfig configOverride).version ++ "/" ++
        endpoint ++ "?" ++ qsStringifyOpt queryParams) }

/-- getPublicEndpoint of src/index.ts.  There is no catch around the await,
so a transport failure propagates as a rejection with the raw error. -/
def getPublicEndpoint (st : ClientState) (endpoint : String)
    (queryParams : Option (List (String × QVal)))
    (configOverride : RequestConfig)
    (transport : AgentConfig → TransportResult) : CallResult :=
  match transport (publicRequest endpoint queryParams configOverride) with
  | .success resp =>
      { state := st, outcome := .resolve resp,
        issued := [publicRequest endpoint queryParams configOverride] }
  | .failure err =>
      { state := st, outcome := .reject err,
        issued := [publicRequest endpoint queryParams configOverride] }

/-- The agent config issued by postToPrivateEndpoint: privateAgentConfig
with the merged Gemini auth headers, the relative uri and the JSON body.
As in the public case, the local config is consulted only for the version
inside the uri and is not spread into the issued request. -/
def privateRequest (auth : ApiAuth) (now : Nat) (endpoint : String)
    (data : Option (List (String × QVal))) (configOverride : RequestConfig)
    (hmacSHA384hex : String → String → String) : AgentConfig :=
  { privateAgentConfig with
      headers := jsSetAll privateAgentConfig.headers
        [("X-GEMINI-APIKEY", QVal.str auth.publicKey),
         ("X-GEMINI-PAYLOAD", QVal.str (signMessage hmacSHA384hex now
            ("/" ++ (mergeConfig defaultConfig configOverride).version ++ "/" ++ endpoint)
            data auth.privateKey).payload),
         ("X-GEMINI-SIGNATURE", QVal.str (signMessage hmacSHA384hex now
            ("/" ++ (mergeConfig defaultConfig configOverride).version ++ "/" ++ endpoint)
            data auth.privateKey).digest)],
      url := some ("/" ++ (mergeConfig defaultConfig configOverride).version ++
        "/" ++ endpoint),
      data := data.map jsonStringifyObj }

/-- postToPrivateEndpoint of src/index.ts. -/
def postToPrivateEndpoint (st : ClientState) (now : Nat) (endpoint : String)
    (data : Option (List (String × QVal))) (configOverride : RequestConfig)
    (hmacSHA384hex : String → String → String)
    (transport : AgentConfig → TransportResult) : CallResult :=
  match st.auth with
  | none =>
      { state := st,
        outcome := .reject (.str "api keys are required to access private endpoints"),
        issued := [] }
  | some auth =>
      match transport (privateRequest auth now endpoint data configOverride hmacSHA384hex) with
      | .success resp =>
          { state := st, outcome := .resolve resp,
            issued := [privateRequest auth now endpoint data configOverride hmacSHA384hex] }
      | .failure err =>
          { state := st,
            outcome := match normalizeRejection err with
                       | .ok v => .reject v
                       | .error e => .rejectThrown e,
            issued := [privateRequest auth now endpoint data configOverride hmacSHA384hex] }

end Gemini

namespace Bittrex

def defaultConfig : ExchangeDefaults :=
  { rootUrl := "https://bittrex.com/api", timeout := 3000, version := "v1.1" }

def defaultHeaders : List (String × QVal) :=
  [("Cache-Control", QVal.str "no-cache"),
   ("Content-Type", QVal.str "application/json"),
   ("User-Agent", QVal.str "Bittrex API Client (bittrex-cryptoexchange-api node package)")]

def publicAgentConfig : AgentConfig :=
  { baseURL := defaultConfig.rootUrl, headers := defaultHeaders,
    method := "GET", timeout := defaultConfig.timeout, url := none,
    data := none }

/-- In src/unnamed/part_000 the private agent config is spread from the
default agent config unchanged, so the method stays GET. -/
def privateAgentConfig : AgentConfig := publicAgentConfig

/-- ISignature of src/unnamed/part_000. -/
structure Signature where
  digest : String
  fullUrl : String
  deriving Repr, DecidableEq

/-- signMessage of src/unnamed/part_000, with the HMAC-SHA512 hex
primitive an explicit parameter: the uri is the full path, a question
mark and the qs encoding of the query params; the digest keys that uri
with the secret. -/
def signMessage (hmacSHA512hex : String → String → String) (fullPath : String)
    (queryParams : List (String × QVal)) (secret : String) : Signature :=
  { digest := hmacSHA512hex secret (fullPath ++ "?" ++ qsStringify queryParams),
    fullUrl := fullPath ++ "?" ++ qsStringify queryParams }

/-- The agent config issued by getPublicEndpoint: publicAgentConfig, then
the computed url, then the local config object spread last, so every
configOverride field (including url and headers) wins over both. -/
def publicRequest (endpoint : String)
    (queryParams : Option (List (String × QVal)))
    (configOverride : RequestConfig) : AgentConfig :=
  { baseURL := (mergeConfig defaultConfig configOverride).baseURL.getD
      publicAgentConfig.baseURL
    headers := (mergeConfig defaultConfig configOverride).headers.getD
      publicAgentConfig.headers
    method := (mergeConfig defaultConfig configOverride).method.getD
      publicAgentConfig.method
    timeout := (mergeConfig defaultConfig configOverride).timeout
    url := some ((mergeConfig defaultConfig configOverride).url.getD
      ((mergeConfig defaultConfig configOverride).version ++ "/" ++ endpoint ++
        "?" ++ qsStringifyOpt queryParams))
    data := none }

/-- getPublicEndpoint of src/unnamed/part_000.  No catch around the await:
a transport failure propagates as a rejection with the raw error. -/
def getPublicEndpoint (st : ClientState) (endpoint : String)
    (queryParams : Option (List (String × QVal)))
    (configOverride : RequestConfig)
    (transport : AgentConfig → TransportResult) : CallResult :=
  match transport (publicRequest endpoint queryParams configOverride) with
  | .success resp =>
      { state := st, outcome := .resolve resp,
        issued := [publicRequest endpoint queryParams configOverride] }
  | .failure err =>
      { state := st, outcome := .reject err,
        issued := [publicRequest endpoint queryParams configOverride] }

/-- The securityParams object of getPrivateEndpoint: the stored public key
and the nonce Date.now() times 1000. -/
def securityParams (auth : ApiAuth) (now : Nat) : List (String × QVal) :=
  [("apiKey", QVal.str auth.publicKey),
   ("nonce", QVal.num (Int.ofNat (now * 1000)))]

/-- scrubbedParams: the caller params spread first, then the security
params, so apiKey and nonce always end up with the client values. -/
def scrubParams (params : Option (List (String × QVal))) (auth : ApiAuth)
    (now : Nat) : List (String × QVal) :=
  jsSetAll (params.getD []) (securityParams auth now)

/-- The full uri signed by getPrivateEndpoint before the query is added:
rootUrl, version and endpoint from the local config. -/
def privateUri (endpoint : String) (configOverride : RequestConfig) : String :=
  (mergeConfig defaultConfig configOverride).rootUrl ++ "/" ++
    (mergeConfig defaultConfig configOverride).version ++ "/" ++ endpoint

/-- The agent config issued by getPrivateEndpoint: privateAgentConfig,
then the merged headers (base headers, apisign, then the headers override
spread over them), then the signed url, then the local config spread last,
so a configOverride headers field replaces the merged headers wholesale
and a configOverride url field replaces the signed url. -/
def privateRequest (auth : ApiAuth) (now : Nat) (endpoint : String)
    (params : Option (List (String × QVal))) (configOverride : RequestConfig)
    (hmacSHA512hex : String → String → String) : AgentConfig :=
  { baseURL := (mergeConfig defaultConfig configOverride).baseURL.getD
      privateAgentConfig.baseURL
    headers := (mergeConfig defaultConfig configOverride).headers.getD
      (jsSetAll
        (jsSet privateAgentConfig.headers "apisign"
          (QVal.str (signMessage hmacSHA512hex (privateUri endpoint configOverride)
            (scrubParams params auth now) auth.privateKey).digest))
        ((mergeConfig defaultConfig configOverride).headers.getD []))
    method := (mergeConfig defaultConfig configOverride).method.getD
      privateAgentConfig.method
    timeout := (mergeConfig defaultConfig configOverride).timeout
    url := some ((mergeConfig defaultConfig configOverride).url.getD
      (signMessage hmacSHA512hex (privateUri endpoint configOverride)
        (scrubParams params auth now) auth.privateKey).fullUrl)
    data := none }

/-- getPrivateEndpoint of src/unnamed/part_000. -/
def getPrivateEndpoint (st : ClientState) (now : Nat) (endpoint : String)
    (params : Option (List (String × QVal))) (configOverride : RequestConfig)
    (hmacSHA512hex : String → String → String)
    (transport : AgentConfig → TransportResult) : CallResult :=
  match st.auth with
  | none =>
      { state := st,
        outcome := .reject (.str "api keys are required to access private endpoints"),
        issued := [] }
  | some auth =>
      match transport (privateRequest auth now endpoint params configOverride hmacSHA512hex) with
      | .success resp =>
          { state := st, outcome := .resolve resp,
            issued := [privateRequest auth now endpoint params configOverride hmacSHA512hex] }
      | .failure err =>
          { state := st,
            outcome := match normalizeRejection err with
                       | .ok v => .reject v
                       | .error e => .rejectThrown e,
            issued := [privateRequest auth now endpoint params configOverride hmacSHA512hex] }

/-- IGetOrderBookParams. -/
structure GetOrderBookParams where
  market : String
  type : Option String
  deriving Repr, DecidableEq

/-- IPlaceOrderParams. -/
structure PlaceOrderParams where
  market : String
  quantity : String
  rate : String
  deriving Repr, DecidableEq

/-- IWithdrawCryptoParams. -/
structure WithdrawCryptoParams where
  currency : String
  quantity : String
  address : String
  paymentId : Option String
  deriving Repr, DecidableEq

/-- An optional string argument as the JS value placed in a params object
(an absent argument appears as an undefined property value). -/
def optStr : Option String → QVal
  | some s => QVal.str s
  | none => QVal.undefined

/-- getOrderBook of the typed client: the type param is replaced by the
string both whenever the caller value is falsy, which covers both an
absent type and the empty string. -/
def getOrderBook (st : ClientState) (clientConfig : RequestConfig)
    (params : GetOrderBookParams)
    (transport : AgentConfig → TransportResult) : CallResult :=
  getPublicEndpoint st "public/getorderbook"
    (some [("market", QVal.str params.market),
           ("type", QVal.str (match params.type with
                              | some t => if t = "" then "both" else t
                              | none => "both"))])
    clientConfig transport

def placeLimitBuy (st : ClientState) (clientConfig : RequestConfig)
    (now : Nat) (hmacSHA512hex : String → String → String)
    (transport : AgentConfig → TransportResult)
    (params : PlaceOrderParams) : CallResult :=
  getPrivateEndpoint st now "market/buylimit"
    (some [("market", QVal.str params.market),
           ("quantity", QVal.str params.quantity),
           ("rate", QVal.str params.rate)])
    clientConfig hmacSHA512hex transport

def placeLimitSell (st : ClientState) (clientConfig : RequestConfig)
    (now : Nat) (hmacSHA512hex : String → String → String)
    (transport : AgentConfig → TransportResult)
    (params : PlaceOrderParams) : CallResult :=
  getPrivateEndpoint st now "market/selllimit"
    (some [("market", QVal.str params.market),
           ("quantity", QVal.str params.quantity),
           ("rate", QVal.str params.rate)])
    clientConfig hmacSHA512hex transport

def cancelOrder (st : ClientState) (clientConfig : RequestConfig)
    (now : Nat) (hmacSHA512hex : String → String → String)
    (transport : AgentConfig → TransportResult) (id : String) : CallResult :=
  getPrivateEndpoint st now "market/cancel" (some [("uuid", QVal.str id)])
    clientConfig hmacSHA512hex transport

def getOpenOrders (st : ClientState) (clientConfig : RequestConfig)
    (now : Nat) (hmacSHA512hex : String → String → String)
    (transport : AgentConfig → TransportResult)
    (marketSymbol : Option String) : CallResult :=
  getPrivateEndpoint st now "market/getopenorders"
    (some [("market", optStr marketSymbol)]) clientConfig hmacSHA512hex transport

def getAccountBalances (st : ClientState) (clientConfig : RequestConfig)
    (now : Nat) (hmacSHA512hex : String → String → String)
    (transport : AgentConfig → TransportResult) : CallResult :=
  getPrivateEndpoint st now "account/getbalances" none clientConfig
    hmacSHA512hex transport

def getBalance (st : ClientState) (clientConfig : RequestConfig)
    (now : Nat) (hmacSHA512hex : String → String → String)
    (transport : AgentConfig → TransportResult)
    (currencyId : String) : CallResult :=
  getPrivateEndpoint st now "account/getbalance"
    (some [("currency", QVal.str currencyId)]) clientConfig hmacSHA512hex transport

def getDepositAddress (st : ClientState) (clientConfig : RequestConfig)
    (now : Nat) (hmacSHA512hex : String → String → String)
    (transport : AgentConfig → TransportResult)
    (currencyId : String) : CallResult :=
  getPrivateEndpoint st now "account/getdepositaddress"
    (some [("currency", QVal.str currencyId)]) clientConfig hmacSHA512hex transport

def withdrawCrypto (st : ClientState) (clientConfig : RequestConfig)
    (now : Nat) (hmacSHA512hex : String → String → String)
    (transport : AgentConfig → TransportResult)
    (params : WithdrawCryptoParams) : CallResult :=
  getPrivateEndpoint st now "account/withdraw"
    (some ([("currency", QVal.str params.currency),
            ("quantity", QVal.str params.quantity),
            ("address", QVal.str params.address)] ++
      (match params.paymentId with
       | some pid => [("paymentId", QVal.str pid)]
       | none => [])))
    clientConfig hmacSHA512hex transport

def getOrder (st : ClientState) (clientConfig : RequestConfig)
    (now : Nat) (hmacSHA512hex : String → String → String)
    (transport : AgentConfig → TransportResult) (id : String) : CallResult :=
  getPrivateEndpoint st now "account/getorder" (some [("uuid", QVal.str id)])
    clientConfig hmacSHA512hex transport

def getOrderHistory (st : ClientState) (clientConfig : RequestConfig)
    (now : Nat) (hmacSHA512hex : String → String → String)
    (transport : AgentConfig → TransportResult)
    (marketSymbol : Option String) : CallResult :=
  getPrivateEndpoint st now "account/getorderhistory"
    (some [("market", optStr marketSymbol)]) clientConfig hmacSHA512hex transport

def getWithdrawalHistory (st : ClientState) (clientConfig : RequestConfig)
    (now : Nat) (hmacSHA512hex : String → String → String)
    (transport : AgentConfig → TransportResult)
    (currencyId : Option String) : CallResult :=
  getPrivateEndpoint st now "account/getwithdrawalhistory"
    (some [("currency", optStr currencyId)]) clientConfig hmacSHA512hex transport

def getDepositHistory (st : ClientState) (clientConfig : RequestConfig)
    (now : Nat) (hmacSHA512hex : String → String → String)
    (transport : AgentConfig → TransportResult)
    (currencyId : Option String) : CallResult :=
  getPrivateEndpoint st now "account/getdeposithistory"
    (some [("currency", optStr currencyId)]) clientConfig hmacSHA512hex transport

end Bittrex

/-- A concrete stand-in for the HMAC primitive, used to instantiate the
HMAC-parametric theorems at concrete inputs. -/
def hmacStub (key msg : String) : String := key ++ ":" ++ msg

/-- A transport that always succeeds with a null body. -/
def transportOk : AgentConfig → TransportResult :=
  fun _ => TransportResult.success JSVal.null

theorem lookupKV_jsSet_same {β : Type} (l : List (String × β)) (k : String) (v : β) :
    lookupKV (jsSet l k v) k = some v := by
  induction l with
  | nil => simp [jsSet, lookupKV]
  | cons hd tl ih =>
      obtain ⟨k₂, v₂⟩ := hd
      by_cases h : k₂ = k
      · simp [jsSet, h, lookupKV]
      · simp [jsSet, h, lookupKV, ih]

theorem lookupKV_jsSet_ne {β : Type} (l : List (String × β)) (k k₀ : String) (v : β)
    (h : k₀ ≠ k) : lookupKV (jsSet l k₀ v) k = lookupKV l k := by
  induction l with
  | nil => simp [jsSet, lookupKV, h]
  | cons hd tl ih =>
      obtain ⟨k₂, v₂⟩ := hd
      by_cases h₂ : k₂ = k₀
      · subst h₂
        simp [jsSet, lookupKV, h, ih]
      · simp only [jsSet, if_neg h₂, lookupKV]
        by_cases h₃ : k₂ = k
        · simp [h₃]
        · simp [h₃, ih]

/-- The apiKey entry of scrubbedParams is always the stored public key,
whatever the caller params held. -/
theorem scrubParams_lookup_apiKey (params : Option (List (String × QVal)))
    (auth : ApiAuth) (now : Nat) :
    lookupKV (Bittrex.scrubParams params auth now) "apiKey"
      = some (QVal.str auth.publicKey) := by
  show lookupKV (jsSet (jsSet (params.getD []) "apiKey" (QVal.str auth.publicKey))
    "nonce" (QVal.num (Int.ofNat (now * 1000)))) "apiKey" = _
  rw [lookupKV_jsSet_ne _ _ _ _ (by decide)]
  exact lookupKV_jsSet_same _ _ _

/-- The nonce entry of scrubbedParams is always Date.now() times 1000,
whatever the caller params held. -/
theorem scrubParams_lookup_nonce (params : Option (List (String × QVal)))
    (auth : ApiAuth) (now : Nat) :
    lookupKV (Bittrex.scrubParams params auth now) "nonce"
      = some (QVal.num (Int.ofNat (now * 1000))) := by
  show lookupKV (jsSet (jsSet (params.getD []) "apiKey" (QVal.str auth.publicKey))
    "nonce" (QVal.num (Int.ofNat (now * 1000)))) "nonce" = _
  exact lookupKV_jsSet_same _ _ _

/-- A Gemini private call on a client with no auth set. -/
theorem geminiPrivate_unauth_eq (st : ClientState) (h : st.auth = none)
    (now : Nat) (endpoint : String) (data : Option (List (String × QVal)))
    (cfg : RequestConfig) (hm : String → String → String)
    (tr : AgentConfig → TransportResult) :
    Gemini.postToPrivateEndpoint st now endpoint data cfg hm tr
      = { state := st,
          outcome := .reject (.str "api keys are required to access private endpoints"),
          issued := [] } := by
  unfold Gemini.postToPrivateEndpoint
  rw [h]

/-- A Bittrex private call on a client with no auth set. -/
theorem bittrexPrivate_unauth_eq (st : ClientState) (h : st.auth = none)
    (now : Nat) (endpoint : String) (params : Option (List (String × QVal)))
    (cfg : RequestConfig) (hm : String → String → String)
    (tr : AgentConfig → TransportResult) :
    Bittrex.getPrivateEndpoint st now endpoint params cfg hm tr
      = { state := st,
          outcome := .reject (.str "api keys are required to access private endpoints"),
          issued := [] } := by
  unfold Bittrex.getPrivateEndpoint
  rw [h]

/-- A Gemini private call on a client whose auth is set issues exactly the
private request. -/
theorem geminiPrivate_issued (st : ClientState) (auth : ApiAuth)
    (h : st.auth = some auth) (now : Nat) (endpoint : String)
    (data : Option (List (String × QVal))) (cfg : RequestConfig)
    (hm : String → String → String) (tr : AgentConfig → TransportResult) :
    (Gemini.postToPrivateEndpoint st now endpoint data cfg hm tr).issued
      = [Gemini.privateRequest auth now endpoint data cfg hm] := by
  simp only [Gemini.postToPrivateEndpoint, h]
  split <;> rfl

/-- A Bittrex private call on a client whose auth is set issues exactly
the private request. -/
theorem bittrexPrivate_issued (st : ClientState) (auth : ApiAuth)
    (h : st.auth = some auth) (now : Nat) (endpoint : String)
    (params : Option (List (String × QVal))) (cfg : RequestConfig)
    (hm : String → String → String) (tr : AgentConfig → TransportResult) :
    (Bittrex.getPrivateEndpoint st now endpoint params cfg hm tr).issued
      = [Bittrex.privateRequest auth now endpoint params cfg hm] := by
  simp only [Bittrex.getPrivateEndpoint, h]
  split <;> rfl

/-- Claim C1 (amended): for every fullPath, query-parameter map and
secret, Bittrex signMessage returns fullUrl equal to fullPath, a question
mark and the conventional form-encoding of the params, where keys with
null values are included as empty but keys with undefined values are
omitted; the digest is the HMAC-SHA512 hex of that full uri keyed by the
secret; and the result is a pure function of exactly these three inputs. -/
theorem claim_C1_bittrex_signMessage (hmacSHA512hex : String → String → String)
    (fullPath : String) (queryParams : List (String × QVal)) (secret : String) :
    (Bittrex.signMessage hmacSHA512hex fullPath queryParams secret).fullUrl
        = fullPath ++ "?" ++ qsStringify queryParams ∧
    (Bittrex.signMessage hmacSHA512hex fullPath queryParams secret).digest
        = hmacSHA512hex secret
            ((Bittrex.signMessage hmacSHA512hex fullPath queryParams secret).fullUrl) ∧
    (∀ k rest, qsStringify ((k, QVal.undefined) :: rest) = qsStringify rest) ∧
    (∀ k, qsPair k QVal.null = some (percentEncode k ++ "=")) ∧
    (∀ fp₂ q₂ s₂, fp₂ = fullPath → q₂ = queryParams → s₂ = secret →
        Bittrex.signMessage hmacSHA512hex fp₂ q₂ s₂
          = Bittrex.signMessage hmacSHA512hex fullPath queryParams secret) := by
  refine ⟨rfl, rfl, ?_, fun k => rfl, ?_⟩
  · intro k rest
    simp [qsStringify, qsPair]
  · intro fp₂ q₂ s₂ h₁ h₂ h₃
    rw [h₁, h₂, h₃]

/-- Claim C1, witness: the amended theorem applied at a concrete input. -/
theorem claim_C1_bittrex_signMessage_witness :
    Bittrex.signMessage hmacStub "p" [("a", QVal.str "b")] "s"
        = Bittrex.signMessage hmacStub "p" [("a", QVal.str "b")] "s" ∧
    (Bittrex.signMessage hmacStub "p" [("a", QVal.str "b")] "s").fullUrl
        = "p" ++ "?" ++ qsStringify [("a", QVal.str "b")] :=
  ⟨(claim_C1_bittrex_signMessage hmacStub "p" [("a", QVal.str "b")] "s").2.2.2.2
      "p" [("a", QVal.str "b")] "s" rfl rfl rfl,
   (claim_C1_bittrex_signMessage hmacStub "p" [("a", QVal.str "b")] "s").1⟩

/-- Claim C1, counterexample: the claim says keys with undefined values
are included as empty, but the qs encoder omits them, so for the params
map with one key a bound to undefined the produced fullUrl differs from
the one the claim describes. -/
theorem claim_C1_counterexample :
    (Bittrex.signMessage hmacStub "p" [("a", QVal.undefined)] "s").fullUrl = "p?" ∧
    "p" ++ "?" ++ specFormEncode [("a", QVal.undefined)] = "p?a=" ∧
    (Bittrex.signMessage hmacStub "p" [("a", QVal.undefined)] "s").fullUrl
      ≠ "p" ++ "?" ++ specFormEncode [("a", QVal.undefined)] := by
  refine ⟨by decide, by decide, by decide⟩

/-- Claim C2: for every path, postData and secret and a fixed nonce,
Gemini signMessage returns payload equal to the base64 of the JSON text of
postData merged with nonce and request set to the path, with nonce and
request overriding colliding postData fields and every other field left
unchanged; the digest is the HMAC-SHA384 hex of that payload keyed by the
secret; and the same inputs with the same nonce give the same result. -/
theorem claim_C2_gemini_signMessage (hmacSHA384hex : String → String → String)
    (now : Nat) (path : String) (postData : Option (List (String × QVal)))
    (secret : String) :
    (Gemini.signMessage hmacSHA384hex now path postData secret).payload
        = base64Encode (jsonStringifyObj
            (jsSet (jsSet (postData.getD []) "nonce" (QVal.str (toString now)))
              "request" (QVal.str path))) ∧
    (Gemini.signMessage hmacSHA384hex now path postData secret).digest
        = hmacSHA384hex secret
            ((Gemini.signMessage hmacSHA384hex now path postData secret).payload) ∧
    lookupKV (jsSet (jsSet (postData.getD []) "nonce" (QVal.str (toString now)))
        "request" (QVal.str path)) "nonce" = some (QVal.str (toString now)) ∧
    lookupKV (jsSet (jsSet (postData.getD []) "nonce" (QVal.str (toString now)))
        "request" (QVal.str path)) "request" = some (QVal.str path) ∧
    (∀ k, k ≠ "nonce" → k ≠ "request" →
        lookupKV (jsSet (jsSet (postData.getD []) "nonce" (QVal.str (toString now)))
          "request" (QVal.str path)) k = lookupKV (postData.getD []) k) ∧
    (∀ now₂ postData₂, now₂ = now → postData₂ = postData →
        Gemini.signMessage hmacSHA384hex now₂ path postData₂ secret
          = Gemini.signMessage hmacSHA384hex now path postData secret) := by
  refine ⟨rfl, rfl, ?_, lookupKV_jsSet_same _ _ _, ?_, ?_⟩
  · rw [lookupKV_jsSet_ne _ _ _ _ (by decide)]
    exact lookupKV_jsSet_same _ _ _
  · intro k h₁ h₂
    rw [lookupKV_jsSet_ne _ _ _ _ (Ne.symm h₂), lookupKV_jsSet_ne _ _ _ _ (Ne.symm h₁)]
  · intro now₂ postData₂ h₁ h₂
    rw [h₁, h₂]

/-- Claim C2, witness: the theorem applied at a concrete input, with the
payload evaluated concretely. -/
theorem claim_C2_gemini_signMessage_witness :
    Gemini.signMessage hmacStub 0 "/v1/e" none "s"
        = Gemini.signMessage hmacStub 0 "/v1/e" none "s" ∧
    (Gemini.signMessage hmacStub 0 "/v1/e" none "s").payload
        = base64Encode (jsonStringifyObj
            (jsSet (jsSet [] "nonce" (QVal.str "0")) "request" (QVal.str "/v1/e"))) :=
  ⟨(claim_C2_gemini_signMessage hmacStub 0 "/v1/e" none "s").2.2.2.2.2
      0 none rfl rfl,
   (claim_C2_gemini_signMessage hmacStub 0 "/v1/e" none "s").1⟩

/-- Claim C3: on a client with no ApiAuth set, the Gemini private call,
the Bittrex private call and every typed Bittrex private operation reject
with the fixed message, issue no HTTP request, and leave the client state
unchanged. -/
theorem claim_C3_unupgraded_private_rejects (st : ClientState)
    (h : st.auth = none) (now : Nat) (endpoint : String)
    (data params : Option (List (String × QVal))) (cfg : RequestConfig)
    (hm384 hm512 : String → String → String)
    (tr : AgentConfig → TransportResult)
    (pob : Bittrex.PlaceOrderParams) (wcp : Bittrex.WithdrawCryptoParams)
    (oid cid : String) (ms cur : Option String) :
    Gemini.postToPrivateEndpoint st now endpoint data cfg hm384 tr
      = { state := st,
          outcome := .reject (.str "api keys are required to access private endpoints"),
          issued := [] } ∧
    Bittrex.getPrivateEndpoint st now endpoint params cfg hm512 tr
      = { state := st,
          outcome := .reject (.str "api keys are required to access private endpoints"),
          issued := [] } ∧
    Bittrex.placeLimitBuy st cfg now hm512 tr pob
      = { state := st,
          outcome := .reject (.str "api keys are required to access private endpoints"),
          issued := [] } ∧
    Bittrex.placeLimitSell st cfg now hm512 tr pob
      = { state := st,
          outcome := .reject (.str "api keys are required to access private endpoints"),
          issued := [] } ∧
    Bittrex.cancelOrder st cfg now hm512 tr oid
      = { state := st,
          outcome := .reject (.str "api keys are required to access private endpoints"),
          issued := [] } ∧
    Bittrex.getOpenOrders st cfg now hm512 tr ms
      = { state := st,
          outcome := .reject (.str "api keys are required to access private endpoints"),
          issued := [] } ∧
    Bittrex.getAccountBalances st cfg now hm512 tr
      = { state := st,
          outcome := .reject (.str "api keys are required to access private endpoints"),
          issued := [] } ∧
    Bittrex.getBalance st cfg now hm512 tr cid
      = { state := st,
          outcome := .reject (.str "api keys are required to access private endpoints"),
          issued := [] } ∧
    Bittrex.getDepositAddress st cfg now hm512 tr cid
      = { state := st,
          outcome := .reject (.str "api keys are required to access private endpoints"),
          issued := [] } ∧
    Bittrex.withdrawCrypto st cfg now hm512 tr wcp
      = { state := st,
          outcome := .reject (.str "api keys are required to access private endpoints"),
          issued := [] } ∧
    Bittrex.getOrder st cfg now hm512 tr oid
      = { state := st,
          outcome := .reject (.str "api keys are required to access private endpoints"),
          issued := [] } ∧
    Bittrex.getOrderHistory st cfg now hm512 tr ms
      = { state := st,
          outcome := .reject (.str "api keys are required to access private endpoints"),
          issued := [] } ∧
    Bittrex.getWithdrawalHistory st cfg now hm512 tr cur
      = { state := st,
          outcome := .reject (.str "api keys are required to access private endpoints"),
          issued := [] } ∧
    Bittrex.getDepositHistory st cfg now hm512 tr cur
      = { state := st,
          outcome := .reject (.str "api keys are required to access private endpoints"),
          issued := [] } := by
  refine ⟨geminiPrivate_unauth_eq st h now endpoint data cfg hm384 tr,
          bittrexPrivate_unauth_eq st h now endpoint params cfg hm512 tr,
          ?_, ?_, ?_, ?_, ?_, ?_, ?_, ?_, ?_, ?_, ?_, ?_⟩
  · unfold Bittrex.placeLimitBuy
    exact bittrexPrivate_unauth_eq st h _ _ _ _ _ _
  · unfold Bittrex.placeLimitSell
    exact bittrexPrivate_unauth_eq st h _ _ _ _ _ _
  · unfold Bittrex.cancelOrder
    exact bittrexPrivate_unauth_eq st h _ _ _ _ _ _
  · unfold Bittrex.getOpenOrders
    exact bittrexPrivate_unauth_eq st h _ _ _ _ _ _
  · unfold Bittrex.getAccountBalances
    exact bittrexPrivate_unauth_eq st h _ _ _ _ _ _
  · unfold Bittrex.getBalance
    exact bittrexPrivate_unauth_eq st h _ _ _ _ _ _
  · unfold Bittrex.getDepositAddress
    exact bittrexPrivate_unauth_eq st h _ _ _ _ _ _
  · unfold Bittrex.withdrawCrypto
    exact bittrexPrivate_unauth_eq st h _ _ _ _ _ _
  · unfold Bittrex.getOrder
    exact bittrexPrivate_unauth_eq st h _ _ _ _ _ _
  · unfold Bittrex.getOrderHistory
    exact bittrexPrivate_unauth_eq st h _ _ _ _ _ _
  · unfold Bittrex.getWithdrawalHistory
    exact bittrexPrivate_unauth_eq st h _ _ _ _ _ _
  · unfold Bittrex.getDepositHistory
    exact bittrexPrivate_unauth_eq st h _ _ _ _ _ _

/-- Claim C3, witness: the theorem applied to a freshly created client
with no auth. -/
theorem claim_C3_unupgraded_private_rejects_witness :
    (ClientState.mk none).auth = none ∧
    Gemini.postToPrivateEndpoint { auth := none } 0 "e" none noOverride hmacStub transportOk
      = { state := { auth := none },
          outcome := .reject (.str "api keys are required to access private endpoints"),
          issued := [] } ∧
    Bittrex.getAccountBalances { auth := none } noOverride 0 hmacStub transportOk
      = { state := { auth := none },
          outcome := .reject (.str "api keys are required to access private endpoints"),
          issued := [] } :=
  ⟨rfl,
   (claim_C3_unupgraded_private_rejects { auth := none } rfl 0 "e" none none
      noOverride hmacStub hmacStub transportOk
      { market := "m", quantity := "1", rate := "2" }
      { currency := "BTC", quantity := "1", address := "a", paymentId := none }
      "o" "BTC" none none).1,
   (claim_C3_unupgraded_private_rejects { auth := none } rfl 0 "e" none none
      noOverride hmacStub hmacStub transportOk
      { market := "m", quantity := "1", rate := "2" }
      { currency := "BTC", quantity := "1", address := "a", paymentId := none }
      "o" "BTC" none none).2.2.2.2.2.2.1⟩

/-- Claim C4: the rejection-normalization chain of the private-endpoint
catch blocks.  The first three preference steps behave as the claim says:
a response body with a truthy error field yields that field, a body with
no error field yields the body, an empty body yields the response object.
But a transport failure with no response at all does not yield the raw
error: evaluating err.response.data.error raises a TypeError (reading the
data property of undefined), so the call rejects with that TypeError
instead of the raw error, contradicting the claim and the intent visible
in the unreachable fallback operands of the chain. -/
theorem claim_C4_rejection_normalization :
    normalizeRejection
        (JSVal.obj [("response", JSVal.obj [("data", JSVal.obj [("error", JSVal.str "X")])])])
      = .ok (JSVal.str "X") ∧
    normalizeRejection
        (JSVal.obj [("response", JSVal.obj [("data", JSVal.obj [("foo", JSVal.num 1)])])])
      = .ok (JSVal.obj [("foo", JSVal.num 1)]) ∧
    normalizeRejection
        (JSVal.obj [("response", JSVal.obj [("data", JSVal.str ""), ("status", JSVal.num 500)])])
      = .ok (JSVal.obj [("data", JSVal.str ""), ("status", JSVal.num 500)]) ∧
    normalizeRejection (JSVal.obj [("message", JSVal.str "socket hang up")])
      = .error (.typeError "cannot read property data of undefined") ∧
    (Bittrex.getPrivateEndpoint { auth := some { publicKey := "k", privateKey := "s" } }
        0 "e" none noOverride hmacStub
        (fun _ => .failure (JSVal.obj [("message", JSVal.str "socket hang up")]))).outcome
      = .rejectThrown (.typeError "cannot read property data of undefined") ∧
    (Gemini.postToPrivateEndpoint { auth := some { publicKey := "k", privateKey := "s" } }
        0 "e" none noOverride hmacStub
        (fun _ => .failure (JSVal.obj [("message", JSVal.str "socket hang up")]))).outcome
      = .rejectThrown (.typeError "cannot read property data of undefined") :=
  ⟨rfl, rfl, rfl, rfl, rfl, rfl⟩

/-- Claim C5: upgrade(newAuth) followed immediately by a private call uses
exactly the keys of newAuth.  The Gemini request carries the three Gemini
auth headers built from newAuth, with the signature keyed by the new
private key; the Bittrex signed query carries apiKey equal to the new
public key and its apisign digest is keyed by the new private key. -/
theorem claim_C5_upgrade_uses_new_keys (st : ClientState) (newAuth : ApiAuth)
    (now : Nat) (endpoint : String) (data params : Option (List (String × QVal)))
    (cfg : RequestConfig) (hm384 hm512 : String → String → String)
    (tr₁ tr₂ : AgentConfig → TransportResult) :
    (Gemini.postToPrivateEndpoint (upgrade st newAuth) now endpoint data cfg hm384 tr₁).issued
        = [Gemini.privateRequest newAuth now endpoint data cfg hm384] ∧
    lookupKV (Gemini.privateRequest newAuth now endpoint data cfg hm384).headers
        "X-GEMINI-APIKEY" = some (QVal.str newAuth.publicKey) ∧
    lookupKV (Gemini.privateRequest newAuth now endpoint data cfg hm384).headers
        "X-GEMINI-PAYLOAD"
      = some (QVal.str (Gemini.signMessage hm384 now
          ("/" ++ (mergeConfig Gemini.defaultConfig cfg).version ++ "/" ++ endpoint)
          data newAuth.privateKey).payload) ∧
    lookupKV (Gemini.privateRequest newAuth now endpoint data cfg hm384).headers
        "X-GEMINI-SIGNATURE"
      = some (QVal.str (Gemini.signMessage hm384 now
          ("/" ++ (mergeConfig Gemini.defaultConfig cfg).version ++ "/" ++ endpoint)
          data newAuth.privateKey).digest) ∧
    (Gemini.signMessage hm384 now
        ("/" ++ (mergeConfig Gemini.defaultConfig cfg).version ++ "/" ++ endpoint)
        data newAuth.privateKey).digest
      = hm384 newAuth.privateKey
          ((Gemini.signMessage hm384 now
            ("/" ++ (mergeConfig Gemini.defaultConfig cfg).version ++ "/" ++ endpoint)
            data newAuth.privateKey).payload) ∧
    (Bittrex.getPrivateEndpoint (upgrade st newAuth) now endpoint params cfg hm512 tr₂).issued
        = [Bittrex.privateRequest newAuth now endpoint params cfg hm512] ∧
    lookupKV (Bittrex.scrubParams params newAuth now) "apiKey"
        = some (QVal.str newAuth.publicKey) ∧
    (Bittrex.signMessage hm512 (Bittrex.privateUri endpoint cfg)
        (Bittrex.scrubParams params newAuth now) newAuth.privateKey).digest
      = hm512 newAuth.privateKey
          ((Bittrex.signMessage hm512 (Bittrex.privateUri endpoint cfg)
            (Bittrex.scrubParams params newAuth now) newAuth.privateKey).fullUrl) ∧
    (Bittrex.privateRequest newAuth now endpoint params cfg hm512).url
      = some (cfg.url.getD
          ((Bittrex.signMessage hm512 (Bittrex.privateUri endpoint cfg)
            (Bittrex.scrubParams params newAuth now) newAuth.privateKey).fullUrl)) :=
  ⟨geminiPrivate_issued (upgrade st newAuth) newAuth rfl now endpoint data cfg hm384 tr₁,
   rfl, rfl, rfl, rfl,
   bittrexPrivate_issued (upgrade st newAuth) newAuth rfl now endpoint params cfg hm512 tr₂,
   scrubParams_lookup_apiKey params newAuth now,
   rfl, rfl⟩

/-- Claim C6 (amended): on an upgraded client a Bittrex private call
issues the private request; when no per-call headers override is supplied
its headers are the base headers with apisign merged in, the apisign value
being the HMAC-SHA512 hex of the full signed uri (path plus signed query)
keyed by the private key; when the configOverride carries a headers field,
that field replaces the merged headers wholesale, so apisign is dropped
unless the override re-supplies it. -/
theorem claim_C6_bittrex_apisign (st : ClientState) (auth : ApiAuth)
    (h : st.auth = some auth) (now : Nat) (endpoint : String)
    (params : Option (List (String × QVal))) (cfg : RequestConfig)
    (hm512 : String → String → String) (tr : AgentConfig → TransportResult) :
    (Bittrex.getPrivateEndpoint st now endpoint params cfg hm512 tr).issued
        = [Bittrex.privateRequest auth now endpoint params cfg hm512] ∧
    (Bittrex.signMessage hm512 (Bittrex.privateUri endpoint cfg)
        (Bittrex.scrubParams params auth now) auth.privateKey).fullUrl
      = Bittrex.privateUri endpoint cfg ++ "?" ++
          qsStringify (Bittrex.scrubParams params auth now) ∧
    (cfg.headers = none →
      (Bittrex.privateRequest auth now endpoint params cfg hm512).headers
          = jsSet Bittrex.privateAgentConfig.headers "apisign"
              (QVal.str (Bittrex.signMessage hm512 (Bittrex.privateUri endpoint cfg)
                (Bittrex.scrubParams params auth now) auth.privateKey).digest) ∧
      lookupKV (Bittrex.privateRequest auth now endpoint params cfg hm512).headers
          "apisign"
        = some (QVal.str (hm512 auth.privateKey
            ((Bittrex.signMessage hm512 (Bittrex.privateUri endpoint cfg)
              (Bittrex.scrubParams params auth now) auth.privateKey).fullUrl)))) ∧
    (∀ hs, cfg.headers = some hs →
      (Bittrex.privateRequest auth now endpoint params cfg hm512).headers = hs) := by
  refine ⟨bittrexPrivate_issued st auth h now endpoint params cfg hm512 tr, rfl, ?_, ?_⟩
  · intro hn
    have he : (Bittrex.privateRequest auth now endpoint params cfg hm512).headers
        = jsSet Bittrex.privateAgentConfig.headers "apisign"
            (QVal.str (Bittrex.signMessage hm512 (Bittrex.privateUri endpoint cfg)
              (Bittrex.scrubParams params auth now) auth.privateKey).digest) := by
      simp [Bittrex.privateRequest, mergeConfig, hn, jsSetAll]
    refine ⟨he, ?_⟩
    rw [he]
    exact lookupKV_jsSet_same _ _ _
  · intro hs hsome
    simp [Bittrex.privateRequest, mergeConfig, hsome]

/-- Claim C6, witness: the amended theorem applied to a concrete call with
no headers override. -/
theorem claim_C6_bittrex_apisign_witness :
    (ClientState.mk (some { publicKey := "k", privateKey := "s" })).auth
        = some { publicKey := "k", privateKey := "s" } ∧
    noOverride.headers = none ∧
    lookupKV (Bittrex.privateRequest { publicKey := "k", privateKey := "s" }
        0 "e" none noOverride hmacStub).headers "apisign"
      = some (QVal.str (hmacStub "s"
          ((Bittrex.signMessage hmacStub (Bittrex.privateUri "e" noOverride)
            (Bittrex.scrubParams none { publicKey := "k", privateKey := "s" } 0)
            "s").fullUrl))) :=
  ⟨rfl, rfl,
   ((claim_C6_bittrex_apisign { auth := some { publicKey := "k", privateKey := "s" } }
      { publicKey := "k", privateKey := "s" } rfl 0 "e" none noOverride hmacStub
      transportOk).2.2.1 rfl).2⟩

/-- Claim C6, counterexample: a private call whose configOverride carries
a headers field issues a request whose headers are exactly that override,
with no apisign entry, so the claim that every private request contains
the apisign header is false. -/
theorem claim_C6_counterexample :
    (Bittrex.getPrivateEndpoint { auth := some { publicKey := "k", privateKey := "s" } }
        0 "e" none { noOverride with headers := some [("X-Custom", QVal.str "y")] }
        hmacStub transportOk).issued
      = [Bittrex.privateRequest { publicKey := "k", privateKey := "s" } 0 "e" none
          { noOverride with headers := some [("X-Custom", QVal.str "y")] } hmacStub] ∧
    (Bittrex.privateRequest { publicKey := "k", privateKey := "s" } 0 "e" none
        { noOverride with headers := some [("X-Custom", QVal.str "y")] } hmacStub).headers
      = [("X-Custom", QVal.str "y")] ∧
    lookupKV (Bittrex.privateRequest { publicKey := "k", privateKey := "s" } 0 "e" none
        { noOverride with headers := some [("X-Custom", QVal.str "y")] } hmacStub).headers
        "apisign"
      = none :=
  ⟨rfl, rfl, rfl⟩

/-- Claim C7: isUpgraded is false with no auth set and true with auth set,
in particular true immediately after upgrade; upgrade stores the new auth
wholesale, independently of the previous state; and the endpoint calls of
both clients leave the client state unchanged, upgrade being the only
state-changing operation. -/
theorem claim_C7_isUpgraded_upgrade (st st₂ : ClientState) (a : ApiAuth)
    (now : Nat) (endpoint : String) (qp data params : Option (List (String × QVal)))
    (cfg : RequestConfig) (hm384 hm512 : String → String → String)
    (tr₁ tr₂ tr₃ tr₄ : AgentConfig → TransportResult) :
    isUpgraded { auth := none } = false ∧
    (∀ a₂ : ApiAuth, isUpgraded { auth := some a₂ } = true) ∧
    isUpgraded (upgrade st a) = true ∧
    (upgrade st a).auth = some a ∧
    upgrade st a = upgrade st₂ a ∧
    (Gemini.getPublicEndpoint st endpoint qp cfg tr₁).state = st ∧
    (Gemini.postToPrivateEndpoint st now endpoint data cfg hm384 tr₂).state = st ∧
    (Bittrex.getPublicEndpoint st endpoint qp cfg tr₃).state = st ∧
    (Bittrex.getPrivateEndpoint st now endpoint params cfg hm512 tr₄).state = st := by
  refine ⟨rfl, fun a₂ => rfl, rfl, rfl, rfl, ?_, ?_, ?_, ?_⟩
  · unfold Gemini.getPublicEndpoint
    cases tr₁ (Gemini.publicRequest endpoint qp cfg) <;> rfl
  · cases hst : st.auth with
    | none => simp [Gemini.postToPrivateEndpoint, hst]
    | some a₂ =>
        simp only [Gemini.postToPrivateEndpoint, hst]
        split <;> rfl
  · unfold Bittrex.getPublicEndpoint
    cases tr₃ (Bittrex.publicRequest endpoint qp cfg) <;> rfl
  · cases hst : st.auth with
    | none => simp [Bittrex.getPrivateEndpoint, hst]
    | some a₂ =>
        simp only [Bittrex.getPrivateEndpoint, hst]
        split <;> rfl

/-- Claim C8 (amended): the Bittrex requests are assembled by overlaying
the built-in agent defaults, then the per-call computed fields (url and,
for private calls, the merged signed headers), then the config override
spread last, so every override field, including url and headers, takes
precedence even over the computed fields; the Gemini requests are
assembled from the built-in defaults plus the computed fields only, the
config override affecting nothing but the version used inside the uri, so
an override timeout or headers never reaches an issued Gemini request. -/
theorem claim_C8_config_assembly (endpoint : String)
    (qp data params : Option (List (String × QVal))) (cfg : RequestConfig)
    (now : Nat) (auth : ApiAuth) (hm384 hm512 : String → String → String) :
    Bittrex.publicRequest endpoint qp cfg
      = { baseURL := cfg.baseURL.getD "https://bittrex.com/api",
          headers := cfg.headers.getD Bittrex.defaultHeaders,
          method := cfg.method.getD "GET",
          timeout := cfg.timeout.getD 3000,
          url := some (cfg.url.getD ((cfg.version.getD "v1.1") ++ "/" ++ endpoint ++
            "?" ++ qsStringifyOpt qp)),
          data := none } ∧
    Bittrex.privateRequest auth now endpoint params cfg hm512
      = { baseURL := cfg.baseURL.getD "https://bittrex.com/api",
          headers := cfg.headers.getD (jsSetAll
            (jsSet Bittrex.privateAgentConfig.headers "apisign"
              (QVal.str (Bittrex.signMessage hm512 (Bittrex.privateUri endpoint cfg)
                (Bittrex.scrubParams params auth now) auth.privateKey).digest))
            (cfg.headers.getD [])),
          method := cfg.method.getD "GET",
          timeout := cfg.timeout.getD 3000,
          url := some (cfg.url.getD
            ((Bittrex.signMessage hm512 (Bittrex.privateUri endpoint cfg)
              (Bittrex.scrubParams params auth now) auth.privateKey).fullUrl)),
          data := none } ∧
    Gemini.publicRequest endpoint qp cfg
      = { Gemini.publicAgentConfig with
          url := some ((cfg.version.getD "v1") ++ "/" ++ endpoint ++ "?" ++
            qsStringifyOpt qp) } ∧
    (Gemini.publicRequest endpoint qp cfg).timeout = 10000 ∧
    (Gemini.publicRequest endpoint qp cfg).headers = Gemini.defaultHeaders ∧
    (Gemini.privateRequest auth now endpoint data cfg hm384).timeout = 10000 ∧
    (Gemini.privateRequest auth now endpoint data cfg hm384).baseURL
      = "https://api.gemini.com" :=
  ⟨rfl, rfl, rfl, rfl, rfl, rfl, rfl⟩

/-- Claim C8, counterexample: a Gemini public call whose configOverride
supplies a timeout and headers issues a request that still carries the
default timeout 10000 and the default headers, so the claim that such an
override takes effect on the issued Gemini request is false. -/
theorem claim_C8_counterexample :
    (Gemini.getPublicEndpoint { auth := none } "symbols" none
        { noOverride with timeout := some 1, headers := some [("X", QVal.str "y")] }
        transportOk).issued.map (fun c => c.timeout) = [10000] ∧
    (Gemini.getPublicEndpoint { auth := none } "symbols" none
        { noOverride with timeout := some 1, headers := some [("X", QVal.str "y")] }
        transportOk).issued.map (fun c => c.headers) = [Gemini.defaultHeaders] ∧
    (10000 : Nat) ≠ 1 :=
  ⟨rfl, rfl, by decide⟩

/-- Claim C9 (amended): a Bittrex getOrderBook call whose params omit type
sends type=both to public/getorderbook, and so does a call whose supplied
type is the empty string, because the default is applied on falsiness;
a supplied non-empty type is used unchanged. -/
theorem claim_C9_getOrderBook_type (st : ClientState) (cfg : RequestConfig)
    (p : Bittrex.GetOrderBookParams) (tr : AgentConfig → TransportResult) :
    (p.type = none →
       Bittrex.getOrderBook st cfg p tr
         = Bittrex.getPublicEndpoint st "public/getorderbook"
             (some [("market", QVal.str p.market), ("type", QVal.str "both")]) cfg tr) ∧
    (p.type = none → cfg.url = none →
       (Bittrex.getOrderBook st cfg p tr).issued.map (fun c => c.url)
         = [some ((mergeConfig Bittrex.defaultConfig cfg).version ++ "/" ++
             "public/getorderbook" ++ "?" ++
             qsStringifyOpt (some [("market", QVal.str p.market),
               ("type", QVal.str "both")]))]) ∧
    (∀ t, p.type = some t → t ≠ "" →
       Bittrex.getOrderBook st cfg p tr
         = Bittrex.getPublicEndpoint st "public/getorderbook"
             (some [("market", QVal.str p.market), ("type", QVal.str t)]) cfg tr) := by
  refine ⟨?_, ?_, ?_⟩
  · intro ht
    simp [Bittrex.getOrderBook, ht]
  · intro ht hu
    simp only [Bittrex.getOrderBook, ht]
    unfold Bittrex.getPublicEndpoint
    cases tr (Bittrex.publicRequest "public/getorderbook"
        (some [("market", QVal.str p.market), ("type", QVal.str "both")]) cfg) <;>
      simp [Bittrex.publicRequest, mergeConfig, hu]
  · intro t ht hne
    simp [Bittrex.getOrderBook, ht, hne]

/-- Claim C9, witness: the amended theorem applied to a concrete call
omitting the type. -/
theorem claim_C9_getOrderBook_type_witness :
    (Bittrex.GetOrderBookParams.mk "m" none).type = none ∧
    noOverride.url = none ∧
    (Bittrex.getOrderBook { auth := none } noOverride { market := "m", type := none }
        transportOk).issued.map (fun c => c.url)
      = [some ((mergeConfig Bittrex.defaultConfig noOverride).version ++ "/" ++
          "public/getorderbook" ++ "?" ++
          qsStringifyOpt (some [("market", QVal.str "m"), ("type", QVal.str "both")]))] :=
  ⟨rfl, rfl,
   (claim_C9_getOrderBook_type { auth := none } noOverride
      { market := "m", type := none } transportOk).2.1 rfl rfl⟩

/-- Claim C9, counterexample: a getOrderBook call that does supply a type,
namely the empty string, does not use the supplied value unchanged: the
request carries type=both instead. -/
theorem claim_C9_counterexample :
    Bittrex.getOrderBook { auth := none } noOverride
        { market := "m", type := some "" } transportOk
      = Bittrex.getPublicEndpoint { auth := none } "public/getorderbook"
          (some [("market", QVal.str "m"), ("type", QVal.str "both")])
          noOverride transportOk ∧
    QVal.str "both" ≠ QVal.str "" :=
  ⟨rfl, by decide⟩

/-- Claim C10: on an upgraded client the Bittrex private call overwrites
any caller-supplied apiKey or nonce query params before signing: the
scrubbed params always map apiKey to the stored public key and nonce to
Date.now() times 1000, and the issued url is the uri signed over exactly
those scrubbed params. -/
theorem claim_C10_security_params (st : ClientState) (auth : ApiAuth)
    (h : st.auth = some auth) (now : Nat) (endpoint : String)
    (params : Option (List (String × QVal))) (cfg : RequestConfig)
    (hm512 : String → String → String) (tr : AgentConfig → TransportResult) :
    lookupKV (Bittrex.scrubParams params auth now) "apiKey"
        = some (QVal.str auth.publicKey) ∧
    lookupKV (Bittrex.scrubParams params auth now) "nonce"
        = some (QVal.num (Int.ofNat (now * 1000))) ∧
    (Bittrex.getPrivateEndpoint st now endpoint params cfg hm512 tr).issued
        = [Bittrex.privateRequest auth now endpoint params cfg hm512] ∧
    (Bittrex.privateRequest auth now endpoint params cfg hm512).url
      = some (cfg.url.getD
          ((Bittrex.signMessage hm512 (Bittrex.privateUri endpoint cfg)
            (Bittrex.scrubParams params auth now) auth.privateKey).fullUrl)) :=
  ⟨scrubParams_lookup_apiKey params auth now,
   scrubParams_lookup_nonce params auth now,
   bittrexPrivate_issued st auth h now endpoint params cfg hm512 tr,
   rfl⟩

/-- Claim C10, witness: the theorem applied to a concrete upgraded client
whose caller params even try to supply their own apiKey and nonce. -/
theorem claim_C10_security_params_witness :
    (ClientState.mk (some { publicKey := "k", privateKey := "s" })).auth
        = some { publicKey := "k", privateKey := "s" } ∧
    lookupKV (Bittrex.scrubParams
        (some [("apiKey", QVal.str "attacker"), ("nonce", QVal.num 7)])
        { publicKey := "k", privateKey := "s" } 3) "apiKey"
      = some (QVal.str "k") ∧
    lookupKV (Bittrex.scrubParams
        (some [("apiKey", QVal.str "attacker"), ("nonce", QVal.num 7)])
        { publicKey := "k", privateKey := "s" } 3) "nonce"
      = some (QVal.num 3000) :=
  ⟨rfl,
   (claim_C10_security_params { auth := some { publicKey := "k", privateKey := "s" } }
      { publicKey := "k", privateKey := "s" } rfl 3 "e"
      (some [("apiKey", QVal.str "attacker"), ("nonce", QVal.num 7)])
      noOverride hmacStub transportOk).1,
   (claim_C10_security_params { auth := some { publicKey := "k", privateKey := "s" } }
      { publicKey := "k", privateKey := "s" } rfl 3 "e"
      (some [("apiKey", QVal.str "attacker"), ("nonce", QVal.num 7)])
      noOverride hmacStub transportOk).2.1⟩
